import Mathlib

/-!
Verification development for `template_setup.py`, a data-science project
scaffolder.  The Python source is shallowly embedded below: the `Folder`
class becomes an inductive type, `Folder.__init__` becomes `initFolder`,
`Folder.folder_path` becomes `folder_path`, `Folder.create_folder` becomes
`create_folder`, and the straight-line `create_project` function becomes a
run over the list of constructor calls it performs, threading an explicit
filesystem state.  Uncaught Python exceptions are modelled with `Except`;
text printed to stdout is collected in a `List Output`.
-/

/-- Python's substring operator `sub in s` on strings: `sub` occurs as a
contiguous substring of `s`. -/
def pyIn (sub s : String) : Bool :=
  decide (sub.data <:+: s.data)

/-- Python's `==` between an exception's `args` tuple and a plain string,
as in `err.args == 'ReservedCharError'` (source lines 30 and 33).  In
Python a tuple never compares equal to a string, so this is constantly
`false`; both specific error-message branches of `Folder.__init__` are
therefore unreachable. -/
def pyTupleEqStr (_t : List String) (_s : String) : Bool :=
  false

/-- Python's `str.capitalize`: first character uppercased, all remaining
characters lowercased. -/
def py_capitalize (s : String) : String :=
  match s.data with
  | [] => ""
  | c :: cs => String.mk (c.toUpper :: cs.map Char.toLower)

/-- Embedding of `wrap` (source lines 6-11): `''.join([wrapping_str, target,
wrapping_str])`. -/
def wrap (target wrapping_str : String) : String :=
  wrapping_str ++ target ++ wrapping_str

/-- Embedding of `reserved_chars` (source line 20): the reserved path
characters, each a one-character Python string. -/
def reserved_chars : List String :=
  ["<", ">", ":", "\"", "/", "\\", "|", "?", "*"]

/-- Embedding of `reserved_names` (source line 21):
`['CON', 'PRN', 'AUX'] + ['COM'+str(i) for i in range(1,10)] + ['LPT'+str(i) for i in range(1,10)]`. -/
def reserved_names : List String :=
  ["CON", "PRN", "AUX"]
    ++ ((List.range' 1 9).map fun i => "COM" ++ toString i)
    ++ ((List.range' 1 9).map fun i => "LPT" ++ toString i)

/-- Guard condition of source line 22:
`any([reserved_chars[i] in folder_name for i in range(len(reserved_chars))])`. -/
def hasReservedChar (folder_name : String) : Bool :=
  reserved_chars.any fun c => pyIn c folder_name

/-- Guard condition of source line 24:
`any([reserved_names[i] in folder_name for i in range(len(reserved_names))])`.
Note that this is a case-sensitive substring test, exactly as in the source. -/
def hasReservedName (folder_name : String) : Bool :=
  reserved_names.any fun r => pyIn r folder_name

/-- Embedding of the `Folder` class data: its three attributes
`folder_name`, `parent` and `readme_text` (source lines 15-17 and 26). -/
inductive Folder where
  | mk (folder_name : String) (parent : Option Folder) (readme_text : Option String)

/-- Attribute `self.folder_name`. -/
def Folder.folder_name : Folder → String
  | .mk n _ _ => n

/-- Attribute `self.parent`. -/
def Folder.parent : Folder → Option Folder
  | .mk _ p _ => p

/-- Attribute `self.readme_text`. -/
def Folder.readme_text : Folder → Option String
  | .mk _ _ r => r

/-- Embedding of the `while` loop of `folder_path` (source lines 46-51): the
list `path`, self first, then each ancestor obtained by walking `parent`
links upward. -/
def pathNamesUp : Folder → List String
  | .mk n none _ => [n]
  | .mk n (some p) _ => n :: pathNamesUp p

/-- Embedding of the `folder_path` property (source lines 42-54): reverse
the walked-up name list so the root comes first, then join with `/`. -/
def folder_path (f : Folder) : String :=
  String.intercalate "/" (pathNamesUp f).reverse

/-- Text printed to stdout during a run. -/
inductive Output where
  /-- Message printed by `print(...)` in the `except` block of
  `Folder.__init__` (source lines 31, 34, 37). -/
  | printed (msg : String)
  /-- Message printed by `print(err)` when `os.mkdir` raises
  `FileExistsError` (source line 60); it names the existing path. -/
  | printedFileExists (path : String)
deriving DecidableEq, Repr

/-- Test for the non-fatal already-exists report. -/
def Output.isFileExistsPrint : Output → Bool
  | .printedFileExists _ => true
  | .printed _ => false

/-- Test for an `__init__` error-handler print. -/
def Output.isPrinted : Output → Bool
  | .printed _ => true
  | .printedFileExists _ => false

/-- Filesystem state: the set of existing directories (as a list of paths
in creation order) and the files with their contents. -/
structure FS where
  dirs : List String
  files : List (String × String)
deriving DecidableEq, Repr

/-- Split of a character list at every occurrence of `c` (the pieces, in
order, with the separators removed), used to resolve path components. -/
def splitOnChar (c : Char) : List Char → List (List Char)
  | [] => [[]]
  | x :: xs =>
    let r := splitOnChar c xs
    if x == c then [] :: r
    else
      match r with
      | [] => [[x]]
      | h :: t => (x :: h) :: t

/-- Parent directory of a path, as the OS resolves it for `os.mkdir`:
everything before the final `/` component. -/
def parentPath (p : String) : String :=
  String.intercalate "/" (((splitOnChar '/' p.data).map String.mk).dropLast)

/-- Semantics of `open(path, 'w')` followed by writes: overwrite the file's
content if the path exists, otherwise add the file. -/
def setFile (files : List (String × String)) (path content : String) :
    List (String × String) :=
  if files.any (fun kv => kv.1 == path) then
    files.map fun kv => if kv.1 == path then (path, content) else kv
  else
    files ++ [(path, content)]

/-- Content of the file at `path`, if present (first match). -/
def getFile (files : List (String × String)) (path : String) : Option String :=
  (files.find? fun kv => kv.1 == path).map fun kv => kv.2

/-- Embedding of `Folder.create_folder` (source lines 56-66).
`os.mkdir` on an existing path raises `FileExistsError`, which the source
catches and prints (non-fatal); `os.mkdir` under a missing parent
directory raises `FileNotFoundError`, which the source does not catch, so
it propagates as a fatal `Except.error`.  If `readme_text` is set, the
README file is then written with the three `f.write` calls of lines 64-66
concatenated. -/
def create_folder (f : Folder) (fs : FS) : Except String (FS × List Output) := do
  let p := folder_path f
  let (fs, out) ←
    if fs.dirs.contains p then
      pure (fs, [Output.printedFileExists p])
    else if fs.dirs.contains (parentPath p) then
      pure ({ fs with dirs := fs.dirs ++ [p] }, ([] : List Output))
    else
      Except.error "FileNotFoundError"
  match f.readme_text with
  | none => pure (fs, out)
  | some txt =>
      let cap := py_capitalize f.folder_name
      let fname := p ++ "/README_" ++ cap ++ ".md"
      let content :=
        "##" ++ wrap cap "**" ++ "\n\n"
          ++ "Folder path: " ++ wrap p "\x60" ++ "\n\n"
          ++ txt
      pure ({ fs with files := setFile fs.files fname content }, out)

/-- Message selection of the `except` block of `Folder.__init__` (source
lines 29-38).  Because `err.args` is a one-element tuple and the source compares
it against a plain string (see `pyTupleEqStr`), the first two branches are
dead and the generic message is always printed. -/
def handleInitError (errName : String) : String :=
  if pyTupleEqStr [errName] "ReservedCharError" then
    "A reserved character (" ++ String.intercalate ", " reserved_chars
      ++ ") was used. Initialization Failed"
  else if pyTupleEqStr [errName] "ReservedNameError" then
    "A reserved name (" ++ String.intercalate ", " reserved_names
      ++ ") was used. Initialization Failed"
  else
    "Other unexpected error occurred: " ++ errName

/-- Result of `Folder.__init__`.  Python's `__init__` cannot abort object
creation by returning early: when validation fails the caller still
receives an object, but one on which `folder_name` was never assigned.
`failed` records exactly the attributes such a partially-initialized
object carries (`parent` and `readme_text`, set on lines 16-17). -/
inductive InitResult where
  | ok (f : Folder)
  | failed (parent : Option Folder) (readme_text : Option String)

/-- Fully-initialized folder object produced by a successful
`Folder.__init__`: `self.folder_name = folder_name` (line 26), overridden
to `'.'` when `parent is None` (lines 27-28). -/
def mkNode (folder_name : String) (parent : Option Folder)
    (readme_text : Option String) : Folder :=
  .mk (if parent.isNone then "." else folder_name) parent readme_text

/-- Embedding of `Folder.__init__` (source lines 15-40): validate the name,
on failure print a message and return with the object left partially
initialized; on success set `folder_name` (root override included) and,
when `parent` is not `None`, immediately call `create_folder`. -/
def initFolder (folder_name : String) (parent : Option Folder)
    (readme_text : Option String) (fs : FS) :
    Except String (InitResult × FS × List Output) :=
  if hasReservedChar folder_name then
    Except.ok (.failed parent readme_text, fs,
      [Output.printed (handleInitError "ReservedCharError")])
  else if hasReservedName folder_name then
    Except.ok (.failed parent readme_text, fs,
      [Output.printed (handleInitError "ReservedNameError")])
  else
    let f := mkNode folder_name parent readme_text
    match parent with
    | none => Except.ok (.ok f, fs, [])
    | some _ => do
        let (fs2, out) ← create_folder f fs
        Except.ok (.ok f, fs2, out)

/-! Readme text constants of `create_project` (source lines 69-126), kept
character-for-character identical to the Python triple-quoted literals. -/

def data_txt : String :=
  "Folder for storing subset data for experiments. \n                                It includes both raw data and processed data for temporary use."

def raw_txt : String :=
  "Storing the raw result which is generated from \"preparation\" folder code. \n                                My practice is storing a local subset copy rather than retrieving data from remote data \n                                store from time to time. It guarantees you have a static dataset for rest of action. \n                                Furthermore, we can isolate from data platform unstable issue and network \n                                latency issue."

def processed_txt : String :=
  "To shorten model training time, it is a good idea to persist processed \n                                          data. It should be generated from \x27processing\x27 folder."

def src_txt : String :=
  "Stores source code (python, R etc) which serves multiple scenarios. During data \n                              exploration and model training, we have to transform data for particular purpose. \n                              We have to use same code to transfer data during online prediction as well. So it better\n                              separates code from notebook such that it serves different purpose."

def preparation_txt : String :=
  "Data ingestion such as retrieving data from CSV, relational database, \n                                             NoSQL, Hadoop etc. We have to retrieve data from multiple sources all the \n                                             time so we better to have a dedicated function for data retrieval. "

def processing_txt : String :=
  "Data transformation/ processing in case it what the model or eda needs.\n                                              Ideally, we have clean data that\x27s rare. You may say that\n                                              we should have data engineering team helps on data transformation. \n                                              However, we may not know what we need until studying the data. One of the\n                                              important requirements is both off-line training and online prediction \n                                              should use same pipeline to reduce misalignment."

def modeling_txt : String :=
  "Model building source code. It should not just include model training part,\n                                       but also evaluation part. On the other hand, we have to think about multiple \n                                       models scenario. Typical use case is ensemble model such as combing Logistic\n                                        Regression model and Neural Network model."

def visualize_txt : String :=
  "Here you can store any graphs that you produce. Other code-driven\n                                         visualizations or diagrams can be included here"

def test_txt : String :=
  "In R&D, data science focus on building model but not make sure everything work well \n                                in unexpected scenario. However, it will be a trouble if deploying model to API. Also, \n                                test cases guarantee backward compatible issue but it takes time to implement it."

def model_txt : String :=
  "Folder for storing binary (json or other format) file for local use."

def notebook_txt : String :=
  "Storing all notebooks includeing EDA and modeling stage."

def eda_txt : String :=
  "Exploratory Data Analysis (aka Data Exploration) is a step for exploring what you \n                                  have for later steps. For short term purpose, it should show what you explored. \n                                  Typical example is showing data distribution. For long term, it should store in \n                                  centralized place. "

def evaluation_txt : String :=
  "Besides modeling, evaluation is another important step. For people\n                                                to trust the model, they must see how it performs"

def modeling_nb_txt : String :=
  "Notebook contains your  model building & training. "

def poc_txt : String :=
  "Occasionally, you have to do some PoC (Proof-of-Concept). It can be show in here \n                                  for temporary purposes."

def doc_txt : String :=
  "Here you can store any documentation that you\u2019ve written about your analysis. It can \n                              also be used as root directory for GitHub Pages to create a project website."

def profiling_txt : String :=
  "Here you can store any scripts you use to benchmark and time your code."

def logs_txt : String :=
  "Here you can store a log file of any work you\u2019ve done on this project."

def reports_txt : String :=
  "Here you can store any output reports, such as HTML or LaTeX versions of \n                                      tables, that you produce."

/-- Folder record as it appears in `create_project`: the constructor-call
arguments of one `Folder(...)` statement, plus the `minimal` flag the
specification attaches to it (`true` exactly for the statements executed
before the `if minimal: return` early exit at source lines 104-106). -/
structure SpecEntry where
  name : String
  parent : Option Folder
  readme : Option String
  minimal : Bool

/-- Folder object bound to the variable `root` (source line 75). -/
def root : Folder := mkNode "root" none none

/-- Folder object bound to the variable `data` (source line 76). -/
def data : Folder := mkNode "data" (some root) (some data_txt)

/-- Folder object bound to the variable `raw` (source line 78). -/
def raw : Folder := mkNode "raw" (some data) (some raw_txt)

/-- Folder object bound to the variable `processed` (source line 83). -/
def processed : Folder := mkNode "processed" (some data) (some processed_txt)

/-- Folder object bound to the variable `src` (source line 85). -/
def src : Folder := mkNode "src" (some root) (some src_txt)

/-- Folder object bound to the variable `preparation` (source line 89). -/
def preparation : Folder := mkNode "preparation" (some src) (some preparation_txt)

/-- Folder object bound to the variable `processing` (source line 92). -/
def processing : Folder := mkNode "processing" (some src) (some processing_txt)

/-- Folder object bound to the variable `modeling` (source line 98). -/
def modeling : Folder := mkNode "modeling" (some src) (some modeling_txt)

/-- Folder object bound to the variable `visualize` (source line 102). -/
def visualize : Folder := mkNode "visualize" (some src) (some visualize_txt)

/-- Folder object bound to the variable `test` (source line 107). -/
def test : Folder := mkNode "test" (some root) (some test_txt)

/-- Folder object bound to the variable `model` (source line 110). -/
def model : Folder := mkNode "model" (some root) (some model_txt)

/-- Folder object bound to the variable `notebook` (source line 111). -/
def notebook : Folder := mkNode "notebook" (some root) (some notebook_txt)

/-- Folder object bound to the variable `eda` (source line 112). -/
def eda : Folder := mkNode "eda" (some notebook) (some eda_txt)

/-- Folder object bound to the variable `evaluation` (source line 116). -/
def evaluation : Folder := mkNode "evaluation" (some notebook) (some evaluation_txt)

/-- Folder object rebound to the variable `modeling` (source line 118; the
source reuses the variable name for the notebook-stage modeling folder). -/
def modeling_nb : Folder := mkNode "modeling" (some notebook) (some modeling_nb_txt)

/-- Folder object bound to the variable `poc` (source line 119). -/
def poc : Folder := mkNode "poc" (some notebook) (some poc_txt)

/-- Folder object bound to the variable `doc` (source line 121). -/
def doc : Folder := mkNode "doc" (some root) (some doc_txt)

/-- Folder object bound to the variable `profiling` (source line 123). -/
def profiling : Folder := mkNode "profiling" (some root) (some profiling_txt)

/-- Folder object bound to the variable `logs` (source line 124). -/
def logs : Folder := mkNode "logs" (some root) (some logs_txt)

/-- Folder object bound to the variable `reports` (source line 125). -/
def reports : Folder := mkNode "reports" (some root) (some reports_txt)

/-- Sequence of `Folder(...)` constructor calls performed by
`create_project` (source lines 75-126), in program order.  The first nine
entries precede the `if minimal: return` early exit and thus carry
`minimal := true`. -/
def folderArgs : List SpecEntry :=
  [⟨"root", none, none, true⟩,
   ⟨"data", some root, some data_txt, true⟩,
   ⟨"raw", some data, some raw_txt, true⟩,
   ⟨"processed", some data, some processed_txt, true⟩,
   ⟨"src", some root, some src_txt, true⟩,
   ⟨"preparation", some src, some preparation_txt, true⟩,
   ⟨"processing", some src, some processing_txt, true⟩,
   ⟨"modeling", some src, some modeling_txt, true⟩,
   ⟨"visualize", some src, some visualize_txt, true⟩,
   ⟨"test", some root, some test_txt, false⟩,
   ⟨"model", some root, some model_txt, false⟩,
   ⟨"notebook", some root, some notebook_txt, false⟩,
   ⟨"eda", some notebook, some eda_txt, false⟩,
   ⟨"evaluation", some notebook, some evaluation_txt, false⟩,
   ⟨"modeling", some notebook, some modeling_nb_txt, false⟩,
   ⟨"poc", some notebook, some poc_txt, false⟩,
   ⟨"doc", some root, some doc_txt, false⟩,
   ⟨"profiling", some root, some profiling_txt, false⟩,
   ⟨"logs", some root, some logs_txt, false⟩,
   ⟨"reports", some root, some reports_txt, false⟩]

/-- Run of a sequence of `Folder(...)` constructor statements, threading
the filesystem and collecting printed output.  As in Python the result
object of each construction is bound to a variable and the statement
sequence continues regardless of a validation failure (`_res` is not
inspected); later statements refer to the earlier objects, which are the
prebuilt node values recorded in the entries.  An uncaught exception
(`Except.error`) aborts the whole run, as it would abort
`create_project`. -/
def runSpecs : List SpecEntry → FS → Except String (FS × List Output)
  | [], fs => Except.ok (fs, [])
  | e :: rest, fs => do
      let (_res, fs2, out) ← initFolder e.name e.parent e.readme fs
      let (fs3, out2) ← runSpecs rest fs2
      Except.ok (fs3, out ++ out2)

/-- Embedding of `create_project` (source lines 69-126): execute the
constructor statements in order; when `minimal` is `true` the function
returns right after the ninth statement (`if minimal: return`), so only
the first nine entries run. -/
def create_project (minimal : Bool) (fs : FS) : Except String (FS × List Output) :=
  if minimal then runSpecs (folderArgs.take 9) fs
  else runSpecs folderArgs fs

/-- Initial filesystem state for a run from a fresh project directory: the
current directory `.` exists, nothing else does. -/
def fs0 : FS := ⟨["."], []⟩

/-- Result of the first `create_project` run from `fs0`. -/
def projectResult (minimal : Bool) : Except String (FS × List Output) :=
  create_project minimal fs0

/-- Filesystem state after the first run. -/
def fsAfter (minimal : Bool) : FS :=
  match projectResult minimal with
  | .ok (fs, _) => fs
  | .error _ => fs0

/-- Result of running `create_project` a second time, against the
filesystem state the first run left behind. -/
def secondResult (minimal : Bool) : Except String (FS × List Output) :=
  create_project minimal (fsAfter minimal)

/-- Output printed by the second run. -/
def outSecond (minimal : Bool) : List Output :=
  match secondResult minimal with
  | .ok (_, o) => o
  | .error _ => []

/-- Sequence of ancestor names from the root down to the node, written
from the specification's words ("the ancestor-to-self name sequence"):
the root's name first, the node's own name last. -/
def ancestorNamesRootFirst : Folder → List String
  | .mk n none _ => [n]
  | .mk n (some p) _ => ancestorNamesRootFirst p ++ [n]

/-! Helper lemmas shared by several claims. -/

/-- Characterization of the reserved-character guard as an existence of an
offending character substring. -/
theorem hasReservedChar_iff (name : String) :
    hasReservedChar name = true ↔ ∃ c ∈ reserved_chars, c.data <:+: name.data := by
  simp [hasReservedChar, pyIn, List.any_eq_true]

/-- Characterization of the reserved-name guard as an existence of an
offending reserved-name substring. -/
theorem hasReservedName_iff (name : String) :
    hasReservedName name = true ↔ ∃ r ∈ reserved_names, r.data <:+: name.data := by
  simp [hasReservedName, pyIn, List.any_eq_true]

/-- Reversing the walked-up name list yields the root-first ancestor list. -/
theorem pathNamesUp_reverse_eq : (f : Folder) →
    (pathNamesUp f).reverse = ancestorNamesRootFirst f
  | .mk n none r => by simp [pathNamesUp, ancestorNamesRootFirst]
  | .mk n (some p) r => by
      rw [pathNamesUp, ancestorNamesRootFirst, List.reverse_cons,
        pathNamesUp_reverse_eq p]

/-! Claim theorems. -/

/-- C1 (counterexample): the name `con` is accepted by construction — the
run succeeds with `folder_name` set and no error output — although `con`
equals the reserved device name `CON` case-insensitively, so acceptance is
not equivalent to the reserved-character/reserved-name condition stated in
the claim (the code's check is a case-sensitive substring test instead). -/
theorem C1_counterexample :
    initFolder "con" (some root) none fs0 =
      Except.ok (InitResult.ok (Folder.mk "con" (some root) none),
        ⟨[".", "./con"], []⟩, [])
    ∧ "CON" ∈ reserved_names
    ∧ "con".data.map Char.toLower = "CON".data.map Char.toLower := by
  exact ⟨rfl, by decide, by decide⟩

/-- C2 (code evaluation at the failing input): constructing a folder named
`a<b` does not fail with a `ValidationError`: the internal exception is
caught, the generic message `Other unexpected error occurred:
ReservedCharError` is printed — the specific reserved-character handler is
dead code because `err.args == 'ReservedCharError'` compares a tuple with
a string — and the caller receives a partially-initialized object
(`folder_name` never assigned, modelled by `InitResult.failed`).  The
printed message does not contain the offending token `<`. -/
theorem C2_swallowed_validation :
    initFolder "a<b" (some root) (some "T") fs0 =
      Except.ok (InitResult.failed (some root) (some "T"), fs0,
        [Output.printed "Other unexpected error occurred: ReservedCharError"])
    ∧ pyIn "<" "Other unexpected error occurred: ReservedCharError" = false := by
  exact ⟨rfl, by decide⟩

/-- C3 (counterexample): constructing a folder node with a parent is not
free of filesystem operations: at the explicit input below the
construction itself creates the directory `./data` and writes the README
file, neither of which existed before. -/
theorem C3_counterexample :
    initFolder "data" (some root) (some "hello") fs0 =
      Except.ok (InitResult.ok (Folder.mk "data" (some root) (some "hello")),
        ⟨[".", "./data"],
          [("./data/README_Data.md",
            "##**Data**\n\nFolder path: \x60./data\x60\n\nhello")]⟩, [])
    ∧ fs0.dirs.contains "./data" = false
    ∧ fs0.files = [] := by
  exact ⟨rfl, by decide, rfl⟩

/-- C3 (amended): construction of a node with a parent triggers
materialization as a side effect — `Folder.__init__` invokes
`create_folder` whenever `parent` is not none, so the construction's
filesystem result is exactly `create_folder`'s. -/
theorem C3_construction_materializes (name : String) (p : Folder)
    (readme : Option String) (fs : FS)
    (h1 : hasReservedChar name = false) (h2 : hasReservedName name = false) :
    initFolder name (some p) readme fs =
      (create_folder (Folder.mk name (some p) readme) fs).map
        (fun r => (InitResult.ok (Folder.mk name (some p) readme), r.1, r.2)) := by
  simp only [initFolder, h1, h2, mkNode, Option.isNone_some, Bool.false_eq_true,
    if_false, reduceIte]
  cases hcf : create_folder (Folder.mk name (some p) readme) fs with
  | error e => simp [hcf, Except.map, Except.bind, bind]
  | ok r => simp [hcf, Except.map, Except.bind, bind]

/-- C3 (witness for the amended theorem): a concrete instance. -/
theorem C3_witness :
    initFolder "data" (some root) none fs0 =
      (create_folder (Folder.mk "data" (some root) none) fs0).map
        (fun r => (InitResult.ok (Folder.mk "data" (some root) none), r.1, r.2)) :=
  C3_construction_materializes "data" root none fs0 (by decide) (by decide)

/-- C4: the `folder_path` property produces the `/`-joined root-first
ancestor-name sequence; for a root node it is just the root's own
identifier; and for the concrete `processing` node of the template, whose
ancestor chain is root, `src`, `processing`, it is `./src/processing`. -/
theorem C4_folder_path :
    (∀ f : Folder, folder_path f = String.intercalate "/" (ancestorNamesRootFirst f))
    ∧ (∀ (n : String) (r : Option String), folder_path (.mk n none r) = n)
    ∧ folder_path processing = "./src/processing" := by
  refine ⟨fun f => ?_, fun n r => rfl, rfl⟩
  rw [folder_path, pathNamesUp_reverse_eq]

/-- C8: every folder actually constructed with `parent = None` gets its
name overridden to the canonical root identifier `.`, regardless of the
name supplied by the caller. -/
theorem C8_root_override (name : String) (readme : Option String) (fs : FS)
    (f : Folder) (fs2 : FS) (out : List Output)
    (h : initFolder name none readme fs = Except.ok (InitResult.ok f, fs2, out)) :
    f.folder_name = "." := by
  by_cases h1 : hasReservedChar name = true
  · simp [initFolder, h1] at h
  · by_cases h2 : hasReservedName name = true
    · simp [initFolder, h1, h2] at h
    · simp only [initFolder, h1, h2, Bool.false_eq_true, if_false, mkNode,
        Option.isNone_none, if_true, reduceIte, Except.ok.injEq,
        Prod.mk.injEq] at h
      obtain ⟨hf, -, -⟩ := h
      cases hf
      rfl

/-- C8 (witness): instantiation at the concrete name `anyname`. -/
theorem C8_witness : (Folder.mk "." none none).folder_name = "." :=
  C8_root_override "anyname" none fs0 (Folder.mk "." none none) fs0 [] rfl

/-- C9: for every folder name containing a reserved character,
construction takes the failure path without touching the filesystem: the
returned state is the input state unchanged (no directory is created), the
object is left partially initialized, and — rather than a `ValidationError`
propagating — the generic handler message is printed. -/
theorem C9_reserved_char_rejected (name : String) (parent : Option Folder)
    (readme : Option String) (fs : FS)
    (h : hasReservedChar name = true) :
    initFolder name parent readme fs =
      Except.ok (InitResult.failed parent readme, fs,
        [Output.printed "Other unexpected error occurred: ReservedCharError"]) := by
  simp [initFolder, h, handleInitError, pyTupleEqStr]

/-- C9 (witness): instantiation at the concrete name `x|y`. -/
theorem C9_witness :
    initFolder "x|y" (some root) none fs0 =
      Except.ok (InitResult.failed (some root) none, fs0,
        [Output.printed "Other unexpected error occurred: ReservedCharError"]) :=
  C9_reserved_char_rejected "x|y" (some root) none fs0 (by decide)

/-- C10: constructing the root node (`parent = None`) performs no
filesystem operation at all: the returned state is the input state
unchanged — no directory is created and, even when a readme text is
supplied, no README file is written — and any output is only an
`__init__` error-handler print, never a materialization report. -/
theorem C10_root_no_fs_effect (name : String) (readme : Option String) (fs : FS) :
    ∃ r out, initFolder name none readme fs = Except.ok (r, fs, out)
      ∧ out.all Output.isPrinted = true := by
  by_cases h1 : hasReservedChar name = true
  · exact ⟨.failed none readme,
      [Output.printed (handleInitError "ReservedCharError")],
      by simp [initFolder, h1], rfl⟩
  · by_cases h2 : hasReservedName name = true
    · exact ⟨.failed none readme,
        [Output.printed (handleInitError "ReservedNameError")],
        by simp [initFolder, h1, h2], rfl⟩
    · exact ⟨.ok (mkNode name none readme), [],
        by simp [initFolder, h1, h2], rfl⟩

/-- Replacing the value at a present key and reading that key yields the
new value. -/
theorem getFile_map_replace (k v : String) : ∀ l : List (String × String),
    l.any (fun kv => kv.1 == k) = true →
    getFile (l.map fun kv => if kv.1 == k then (k, v) else kv) k = some v := by
  intro l
  induction l with
  | nil => intro h; simp at h
  | cons kv l ih =>
      intro h
      by_cases hk : (kv.1 == k) = true
      · unfold getFile
        rw [List.map_cons, if_pos hk, List.find?_cons_of_pos _ (by simp)]
        simp
      · have hk' : (kv.1 == k) = false := by simpa using hk
        rw [List.any_cons, hk', Bool.false_or] at h
        unfold getFile at ih ⊢
        rw [List.map_cons, if_neg hk, List.find?_cons_of_neg _ (by simp [hk'])]
        exact ih h

/-- Appending a fresh key-value pair after entries that do not carry the
key and reading that key yields the appended value. -/
theorem getFile_append_new (k v : String) : ∀ l : List (String × String),
    l.any (fun kv => kv.1 == k) = false →
    getFile (l ++ [(k, v)]) k = some v := by
  intro l
  induction l with
  | nil =>
      intro _
      unfold getFile
      rw [List.nil_append, List.find?_cons_of_pos _ (by simp)]
      simp
  | cons kv l ih =>
      intro h
      have h1 : (kv.1 == k) = false := by
        cases hkv : (kv.1 == k) with
        | false => rfl
        | true => rw [List.any_cons, hkv, Bool.true_or] at h; exact absurd h (by simp)
      have h2 : l.any (fun kv => kv.1 == k) = false := by
        cases hl : l.any (fun kv => kv.1 == k) with
        | false => rfl
        | true => rw [List.any_cons, hl, Bool.or_true] at h; exact absurd h (by simp)
      unfold getFile at ih ⊢
      rw [List.cons_append, List.find?_cons_of_neg _ (by simp [h1])]
      exact ih h2

/-- Writing a file and reading it back at the same path yields the written
content. -/
theorem getFile_setFile (l : List (String × String)) (k v : String) :
    getFile (setFile l k v) k = some v := by
  unfold setFile
  by_cases h : l.any (fun kv => kv.1 == k) = true
  · rw [if_pos h]
    exact getFile_map_replace k v l h
  · rw [if_neg h]
    cases hb : l.any (fun kv => kv.1 == k) with
    | false => exact getFile_append_new k v l hb
    | true => exact absurd hb h

/-- Evaluation of `create_folder` when the target directory already
exists and a readme text is present: the already-exists condition is
reported and the README is (re)written. -/
theorem create_folder_eq_of_exists (f : Folder) (txt : String) (fs : FS)
    (hr : f.readme_text = some txt)
    (hex : fs.dirs.contains (folder_path f) = true) :
    create_folder f fs = Except.ok
      (FS.mk fs.dirs
        (setFile fs.files
          (folder_path f ++ "/README_" ++ py_capitalize f.folder_name ++ ".md")
          ("##" ++ wrap (py_capitalize f.folder_name) "**" ++ "\n\n"
            ++ "Folder path: " ++ wrap (folder_path f) "\x60" ++ "\n\n" ++ txt)),
        [Output.printedFileExists (folder_path f)]) := by
  have hex2 : folder_path f ∈ fs.dirs := by simpa using hex
  simp [create_folder, hex2, hr, pure, Except.pure, bind, Except.bind]

/-- Evaluation of `create_folder` when the target directory does not yet
exist but its parent does, with a readme text present: the directory is
created and the README written. -/
theorem create_folder_eq_of_new (f : Folder) (txt : String) (fs : FS)
    (hr : f.readme_text = some txt)
    (hnex : fs.dirs.contains (folder_path f) = false)
    (hpar : fs.dirs.contains (parentPath (folder_path f)) = true) :
    create_folder f fs = Except.ok
      (FS.mk (fs.dirs ++ [folder_path f])
        (setFile fs.files
          (folder_path f ++ "/README_" ++ py_capitalize f.folder_name ++ ".md")
          ("##" ++ wrap (py_capitalize f.folder_name) "**" ++ "\n\n"
            ++ "Folder path: " ++ wrap (folder_path f) "\x60" ++ "\n\n" ++ txt)),
        ([] : List Output)) := by
  have hnex2 : folder_path f ∉ fs.dirs := by simpa using hnex
  have hpar2 : parentPath (folder_path f) ∈ fs.dirs := by simpa using hpar
  simp [create_folder, hnex2, hpar2, hr, pure, Except.pure, bind, Except.bind]

/-- C5: for a node carrying readme text, materialization (`create_folder`,
run in a state where the target directory or at least its parent exists)
writes the file `README_<TitleCase(name)>.md` inside the node's directory,
and its content is exactly the bolded title-cased H2 heading, a blank
line, the `Folder path:` line with the path in backticks, a blank line,
then the raw readme text verbatim. -/
theorem C5_readme_file (f : Folder) (txt : String) (fs : FS)
    (hr : f.readme_text = some txt)
    (hdir : fs.dirs.contains (folder_path f) = true
        ∨ fs.dirs.contains (parentPath (folder_path f)) = true) :
    ∃ fs2 out, create_folder f fs = Except.ok (fs2, out)
      ∧ getFile fs2.files
            (folder_path f ++ "/README_" ++ py_capitalize f.folder_name ++ ".md")
          = some ("##**" ++ py_capitalize f.folder_name ++ "**" ++ "\n\n"
              ++ "Folder path: " ++ "\x60" ++ folder_path f ++ "\x60" ++ "\n\n"
              ++ txt) := by
  have hcontent :
      "##" ++ wrap (py_capitalize f.folder_name) "**" ++ "\n\n"
          ++ "Folder path: " ++ wrap (folder_path f) "\x60" ++ "\n\n"
          ++ txt
        = "##**" ++ py_capitalize f.folder_name ++ "**" ++ "\n\n"
            ++ "Folder path: " ++ "\x60" ++ folder_path f ++ "\x60" ++ "\n\n"
            ++ txt := by
    simp only [wrap, ← String.append_assoc]
    rfl
  by_cases hex : fs.dirs.contains (folder_path f) = true
  · refine ⟨_, _, create_folder_eq_of_exists f txt fs hr hex, ?_⟩
    rw [show (FS.mk fs.dirs (setFile fs.files
        (folder_path f ++ "/README_" ++ py_capitalize f.folder_name ++ ".md")
        ("##" ++ wrap (py_capitalize f.folder_name) "**" ++ "\n\n"
          ++ "Folder path: " ++ wrap (folder_path f) "\x60" ++ "\n\n" ++ txt))).files
      = setFile fs.files
        (folder_path f ++ "/README_" ++ py_capitalize f.folder_name ++ ".md")
        ("##" ++ wrap (py_capitalize f.folder_name) "**" ++ "\n\n"
          ++ "Folder path: " ++ wrap (folder_path f) "\x60" ++ "\n\n" ++ txt) from rfl,
      getFile_setFile, hcontent]
  · have hnex : fs.dirs.contains (folder_path f) = false := by simpa using hex
    have hpar : fs.dirs.contains (parentPath (folder_path f)) = true := by
      rcases hdir with h | h
      · exact absurd h hex
      · exact h
    refine ⟨_, _, create_folder_eq_of_new f txt fs hr hnex hpar, ?_⟩
    rw [show (FS.mk (fs.dirs ++ [folder_path f]) (setFile fs.files
        (folder_path f ++ "/README_" ++ py_capitalize f.folder_name ++ ".md")
        ("##" ++ wrap (py_capitalize f.folder_name) "**" ++ "\n\n"
          ++ "Folder path: " ++ wrap (folder_path f) "\x60" ++ "\n\n" ++ txt))).files
      = setFile fs.files
        (folder_path f ++ "/README_" ++ py_capitalize f.folder_name ++ ".md")
        ("##" ++ wrap (py_capitalize f.folder_name) "**" ++ "\n\n"
          ++ "Folder path: " ++ wrap (folder_path f) "\x60" ++ "\n\n" ++ txt) from rfl,
      getFile_setFile, hcontent]

/-- C5 (witness): a concrete instance in which `data`'s README is written
under `./data` with the exact claimed content. -/
theorem C5_witness :
    ∃ fs2 out,
      create_folder (Folder.mk "data" (some root) (some "hi")) fs0
          = Except.ok (fs2, out)
        ∧ getFile fs2.files
              (folder_path (Folder.mk "data" (some root) (some "hi"))
                ++ "/README_"
                ++ py_capitalize (Folder.mk "data" (some root) (some "hi")).folder_name
                ++ ".md")
            = some ("##**"
                ++ py_capitalize (Folder.mk "data" (some root) (some "hi")).folder_name
                ++ "**" ++ "\n\n" ++ "Folder path: " ++ "\x60"
                ++ folder_path (Folder.mk "data" (some root) (some "hi"))
                ++ "\x60" ++ "\n\n" ++ "hi") :=
  C5_readme_file (Folder.mk "data" (some root) (some "hi")) "hi" fs0 rfl
    (Or.inr (by decide))

/-- C6: running the build twice against the same filesystem state with the
same specs is idempotent.  The first run from the fresh state succeeds
with no output at all; the second run, against the state the first one
left behind, returns exactly the same filesystem state (same tree of
directories, same files with the same contents) and raises only non-fatal
already-exists conditions (each directory's `FileExistsError` is printed,
the run still returns `Except.ok`), never a fatal error.  This holds for
both values of the `minimal` flag. -/
theorem C6_idempotent (m : Bool) :
    projectResult m = Except.ok (fsAfter m, [])
    ∧ secondResult m = Except.ok (fsAfter m, outSecond m)
    ∧ (outSecond m).all Output.isFileExistsPrint = true := by
  cases m
  · exact ⟨rfl, rfl, rfl⟩
  · exact ⟨rfl, rfl, rfl⟩

/-- C7: with `minimal = true` a spec's directory exists after the build
exactly when its own `minimal` flag is set (the root's `.`, always
present, carries flag `true`): excluded specs get no directory.  With
`minimal = false` every spec's directory exists.  Moreover the nine specs
the early `return` keeps are exactly the ones whose `minimal` flag is
set. -/
theorem C7_minimal_filtering :
    (folderArgs.all fun e =>
        ((fsAfter true).dirs.contains (folder_path (mkNode e.name e.parent e.readme))
            == e.minimal)
          && (fsAfter false).dirs.contains (folder_path (mkNode e.name e.parent e.readme)))
        = true
    ∧ folderArgs.take 9 = folderArgs.filter (fun e => e.minimal) := by
  constructor
  · have ht : (fsAfter true).dirs =
        [".", "./data", "./data/raw", "./data/processed", "./src",
         "./src/preparation", "./src/processing", "./src/modeling",
         "./src/visualize"] := rfl
    have hf : (fsAfter false).dirs =
        [".", "./data", "./data/raw", "./data/processed", "./src",
         "./src/preparation", "./src/processing", "./src/modeling",
         "./src/visualize", "./test", "./model", "./notebook",
         "./notebook/eda", "./notebook/evaluation", "./notebook/modeling",
         "./notebook/poc", "./doc", "./profiling", "./logs", "./reports"] := rfl
    simp only [ht, hf]
    decide
  · rfl

/-- C1 (amended): a folder name is accepted by construction — the
constructed object always comes out fully initialized rather than in the
partially-initialized failure state — if and only if the name contains
none of the reserved path characters and does not contain, case
sensitively, any reserved device name as a substring.  (The source checks
`reserved_names[i] in folder_name`, a substring test, not a
case-insensitive equality.) -/
theorem C1_name_acceptance (name : String) (parent : Option Folder)
    (readme : Option String) (fs : FS) :
    (∀ res fs2 out, initFolder name parent readme fs = Except.ok (res, fs2, out) →
        ∃ f, res = InitResult.ok f)
      ↔ ((∀ c ∈ reserved_chars, ¬ c.data <:+: name.data)
          ∧ (∀ r ∈ reserved_names, ¬ r.data <:+: name.data)) := by
  by_cases h1 : hasReservedChar name = true
  · refine iff_of_false (fun hacc => ?_) (fun hok => ?_)
    · obtain ⟨f, hf⟩ := hacc (.failed parent readme) fs
        [Output.printed (handleInitError "ReservedCharError")]
        (by simp [initFolder, h1])
      exact InitResult.noConfusion hf
    · obtain ⟨c, hc, hcin⟩ := (hasReservedChar_iff name).mp h1
      exact hok.1 c hc hcin
  · by_cases h2 : hasReservedName name = true
    · refine iff_of_false (fun hacc => ?_) (fun hok => ?_)
      · obtain ⟨f, hf⟩ := hacc (.failed parent readme) fs
          [Output.printed (handleInitError "ReservedNameError")]
          (by simp [initFolder, h1, h2])
        exact InitResult.noConfusion hf
      · obtain ⟨r, hr, hrin⟩ := (hasReservedName_iff name).mp h2
        exact hok.2 r hr hrin
    · refine iff_of_true (fun res fs2 out h => ?_) ⟨?_, ?_⟩
      · cases parent with
        | none =>
            simp only [initFolder, h1, h2, Bool.false_eq_true, if_false,
              reduceIte, Except.ok.injEq, Prod.mk.injEq] at h
            exact ⟨mkNode name none readme, h.1.symm⟩
        | some p =>
            simp only [initFolder, h1, h2, Bool.false_eq_true, if_false,
              reduceIte] at h
            cases hcf : create_folder (mkNode name (some p) readme) fs with
            | error e =>
                rw [hcf] at h
                exact absurd h (by simp [Except.bind, bind])
            | ok r =>
                rw [hcf] at h
                simp only [bind, Except.bind, Except.ok.injEq, Prod.mk.injEq] at h
                exact ⟨mkNode name (some p) readme, h.1.symm⟩
      · intro c hc hcin
        exact h1 ((hasReservedChar_iff name).mpr ⟨c, hc, hcin⟩)
      · intro r hr hrin
        exact h2 ((hasReservedName_iff name).mpr ⟨r, hr, hrin⟩)
